import Mathlib

/-!
Shallow embedding of the NodePatch core (src/src/core/patchModules.ts and
the CodeVault artifact store) together with proofs about the behaviour of
its registry operations.

Conventions of the embedding:
* module instances are values of an arbitrary type `α` (the source is
  untyped JavaScript; each theorem instantiates `α` as needed);
* byte payloads (`Buffer`s and UTF-8 strings seen as their bytes) are
  `List Nat`;
* the Brotli codec (`zlib.brotliCompressSync` / `brotliDecompressSync`)
  is an external library, modelled by a pair of functions passed as
  parameters; theorems about round trips assume the codec is lossless,
  which is the documented contract of Brotli;
* `require(path)` after a cache delete is modelled by a pure loader
  function from the file's bytes to `Option α` (`none` models a throw);
* mutation of the in-memory registry is explicit state passing: an
  operation returns the result (`Except` for throwing operations) paired
  with the post-state; on a throw the post-state keeps every mutation the
  source performed before the throwing statement, matching JavaScript
  exception semantics.
-/

namespace NodePatch

/-- Byte strings (Node `Buffer` contents / UTF-8 bytes of a string). -/
abbrev Bytes := List Nat

/-- Finite string-keyed maps as functions, with pointwise update. -/
def updateMap {β : Type} (m : String → Option β) (k : String) (v : β) :
    String → Option β :=
  fun k2 => if k2 = k then some v else m k2

theorem updateMap_same {β : Type} (m : String → Option β) (k : String) (v : β) :
    updateMap m k v k = some v := by
  simp [updateMap]

theorem updateMap_other {β : Type} (m : String → Option β) (k k2 : String)
    (v : β) (h : k2 ≠ k) : updateMap m k v k2 = m k2 := by
  simp [updateMap, h]

/-- Storage backend selector of `CodeVault` (`CacheBackend` in
src/utils/caching.ts). -/
inductive CacheBackend where
  | file
  | sqlite
deriving DecidableEq

/-- State of a `CodeVault`: the file backend is the directory contents
(file name to compressed bytes), the sqlite backend is the `code_store`
table (key to compressed blob and `created_at`). -/
structure CodeVault where
  backend : CacheBackend
  files : String → Option Bytes
  table : String → Option (Bytes × Nat)

/-- `CodeVault.store`: compresses the payload; file backend writes
`<key>.js.br`, sqlite backend does `INSERT OR REPLACE` keyed by `key`
with `Date.now()` as `created_at`. -/
def CodeVault.store (compress : Bytes → Bytes) (v : CodeVault) (key : String)
    (code : Bytes) (now : Nat) : CodeVault :=
  match v.backend with
  | .file => { v with files := updateMap v.files (key ++ ".js.br") (compress code) }
  | .sqlite => { v with table := updateMap v.table key (compress code, now) }

/-- `CodeVault.load`: file backend reads `<key>.js.br` if it exists,
sqlite backend selects the row by key; the compressed blob, when found,
is decompressed and returned. -/
def CodeVault.load (decompress : Bytes → Bytes) (v : CodeVault) (key : String) :
    Option Bytes :=
  match v.backend with
  | .file => (v.files (key ++ ".js.br")).map decompress
  | .sqlite => (v.table key).map (fun r => decompress r.1)

/-- An empty vault with the given backend. -/
def CodeVault.empty (backend : CacheBackend) : CodeVault :=
  ⟨backend, fun _ => none, fun _ => none⟩

end NodePatch

namespace NodePatch

/-- `ModuleVersionMeta` of patchModules.ts: a CodeVault key plus a Unix
timestamp. -/
structure ModuleVersionMeta where
  key : String
  createdAt : Nat
deriving DecidableEq

/-- `ModuleEntry` of patchModules.ts: optional source path, current
instance (`inst` for the source's `instance`, a Lean keyword), one-step
in-memory backup, version history, current version key. -/
structure ModuleEntry (α : Type) where
  path : Option String
  inst : α
  backup : Option α
  versions : List ModuleVersionMeta
  currentVersion : Option String
deriving DecidableEq

/-- The errors `Logger.error` throws inside PatchModules, by call site. -/
inductive PErr where
  | notRegistered
  | noFilePath
  | noBackup
  | outOfRange
  | cachedVersionNotFound
  | readFailure
  | loadFailure
deriving DecidableEq

/-- Combined mutable state the PatchModules methods touch: the registry
map, the vault, and the filesystem (source-file path to bytes). -/
structure Sys (α : Type) where
  modules : String → Option (ModuleEntry α)
  vault : CodeVault
  fs : String → Option Bytes

/-- A system with no registered modules, an empty vault and an empty
filesystem. -/
def Sys.empty (α : Type) (backend : CacheBackend) : Sys α :=
  ⟨fun _ => none, CodeVault.empty backend, fun _ => none⟩

/-- `makeVersionKey`: `` `${name}@${Date.now()}` ``. -/
def makeVersionKey (name : String) (now : Nat) : String :=
  name ++ "@" ++ toString now

/-- `PatchModules.register`: unconditionally assigns a fresh entry with
empty version history to `name`, returning the instance. -/
def Sys.register {α : Type} (s : Sys α) (name : String) (a : α) : Sys α :=
  { s with modules := updateMap s.modules name ⟨none, a, none, [], none⟩ }

/-- `PatchModules.get`: throws when the name is unknown, otherwise
returns the entry's current instance directly. -/
def Sys.get {α : Type} (s : Sys α) (name : String) : Except PErr α :=
  match s.modules name with
  | none => .error .notRegistered
  | some e => .ok e.inst

/-- `PatchModules.history`: throws when the name is unknown, otherwise
returns the entry's version list. -/
def Sys.history {α : Type} (s : Sys α) (name : String) :
    Except PErr (List ModuleVersionMeta) :=
  match s.modules name with
  | none => .error .notRegistered
  | some e => .ok e.versions

/-- `PatchModules.reload`: reads the source file, archives it under
`makeVersionKey`, appends to the version log, sets `currentVersion`,
saves the old instance in `backup`, then re-requires the file. A throw
in the final `require` (modelled by `loadModule` returning `none`) still
keeps the vault write, version-log append and backup overwrite, as the
source mutates the entry in place before that statement. -/
def Sys.reload {α : Type} (compress : Bytes → Bytes)
    (loadModule : Bytes → Option α) (s : Sys α) (name : String) (now : Nat) :
    Except PErr α × Sys α :=
  match s.modules name with
  | none => (.error .notRegistered, s)
  | some e =>
    match e.path with
    | none => (.error .noFilePath, s)
    | some p =>
      match s.fs p with
      | none => (.error .readFailure, s)
      | some code =>
        let key := makeVersionKey name now
        let vault2 := s.vault.store compress key code now
        let e2 : ModuleEntry α :=
          { e with
            versions := e.versions ++ [⟨key, now⟩]
            currentVersion := some key
            backup := some e.inst }
        match loadModule code with
        | none =>
          (.error .loadFailure,
            { s with vault := vault2, modules := updateMap s.modules name e2 })
        | some v =>
          (.ok v,
            { s with vault := vault2,
                     modules := updateMap s.modules name { e2 with inst := v } })

/-- `PatchModules.reloadInstance`: when the entry has a path and source
code is supplied, archives the code, appends to the version log, sets
`currentVersion` and writes the code back to the source file; in every
case saves the old instance in `backup` and installs `newInst`. -/
def Sys.reloadInstance {α : Type} (compress : Bytes → Bytes) (s : Sys α)
    (name : String) (newInst : α) (sourceCode : Option Bytes) (now : Nat) :
    Except PErr α × Sys α :=
  match s.modules name with
  | none => (.error .notRegistered, s)
  | some e =>
    match e.path, sourceCode with
    | some p, some sc =>
      let key := makeVersionKey name now
      let e2 : ModuleEntry α :=
        { e with
          versions := e.versions ++ [⟨key, now⟩]
          currentVersion := some key
          backup := some e.inst
          inst := newInst }
      (.ok newInst,
        { s with
          vault := s.vault.store compress key sc now
          fs := updateMap s.fs p sc
          modules := updateMap s.modules name e2 })
    | _, _ =>
      (.ok newInst,
        { s with modules :=
            updateMap s.modules name { e with backup := some e.inst, inst := newInst } })

/-- `PatchModules.rollback`: with no path or an empty version log it
swaps `instance` and `backup` (throwing if there is no backup);
otherwise it computes `targetIndex = versions.length - 1 - steps` as an
integer, throws when negative, loads the target artifact from the vault
and checks it with `if (!code)` — a falsy guard that throws the
"Cached version not found" error both when the key is absent
(`undefined`) and when the stored artifact is the empty string — then
writes it to the source file, saves the old instance in `backup`,
re-requires the file, truncates the version log to `targetIndex + 1`
entries and updates `currentVersion`. A throw in the `require` keeps
the file write and the backup overwrite but not the truncation,
matching the statement order of the source. -/
def Sys.rollback {α : Type} (decompress : Bytes → Bytes)
    (loadModule : Bytes → Option α) (s : Sys α) (name : String) (steps : Nat) :
    Except PErr α × Sys α :=
  match s.modules name with
  | none => (.error .notRegistered, s)
  | some e =>
    if e.path = none ∨ e.versions = [] then
      match e.backup with
      | none => (.error .noBackup, s)
      | some b =>
        (.ok b,
          { s with modules :=
              updateMap s.modules name { e with inst := b, backup := some e.inst } })
    else
      match e.path with
      | none => (.error .noBackup, s)
      | some p =>
        let historyLength := e.versions.length
        let targetIndex : Int := (historyLength : Int) - 1 - (steps : Int)
        if targetIndex < 0 then (.error .outOfRange, s)
        else
          match e.versions[targetIndex.toNat]? with
          | none => (.error .outOfRange, s)
          | some target =>
            match s.vault.load decompress target.key with
            | none => (.error .cachedVersionNotFound, s)
            | some code =>
              if code = [] then (.error .cachedVersionNotFound, s)
              else
              let fs2 := updateMap s.fs p code
              match loadModule code with
              | none =>
                (.error .loadFailure,
                  { s with fs := fs2,
                           modules := updateMap s.modules name
                             { e with backup := some e.inst } })
              | some v =>
                (.ok v,
                  { s with fs := fs2,
                           modules := updateMap s.modules name
                             { e with
                               backup := some e.inst
                               inst := v
                               versions := e.versions.take (targetIndex.toNat + 1)
                               currentVersion := some target.key } })

end NodePatch

namespace NodePatch

end NodePatch

namespace NodePatch

/-- The undo history the source actually keeps for an entry: the
contents of the single `backup` slot, as a list. -/
def undoHistory {α : Type} (e : ModuleEntry α) : List α :=
  e.backup.toList

/-- C4 counterexample: registering the same name twice raises no
conflict (`register` is total) and silently replaces the stored
instance with the second one. -/
theorem c4_register_overwrites_counterexample :
    ((Sys.register (Sys.register (Sys.empty Nat .sqlite) "m" 1) "m" 2).modules
        "m").map ModuleEntry.inst = some 2 ∧
    ((Sys.register (Sys.register (Sys.empty Nat .sqlite) "m" 1) "m" 2).modules
        "m").map ModuleEntry.inst ≠ some 1 := by
  constructor
  · rfl
  · decide

/-- C4 amended: `register(name, instance)` never fails; when the name is
already present it silently overwrites the entry with a fresh one (new
instance, no path, no backup, empty version log). -/
theorem c4_register_overwrites {α : Type} (s : Sys α) (n : String) (v : α)
    (e : ModuleEntry α) (_h : s.modules n = some e) :
    (Sys.register s n v).modules n = some ⟨none, v, none, [], none⟩ := by
  simp [Sys.register, updateMap_same]

/-- C4 amended witness: overwriting a concrete pre-existing entry. -/
theorem c4_register_overwrites_witness :
    ((Sys.register (Sys.empty Nat .sqlite) "m" 1).register "m" 2).modules "m" =
      some ⟨none, 2, none, [], none⟩ :=
  c4_register_overwrites (Sys.register (Sys.empty Nat .sqlite) "m" 1) "m" 2
    ⟨none, 1, none, [], none⟩ (by rfl)

/-- C10: for an entry with no backing path (or an empty version list)
and a non-empty backup, `rollback` swaps the instance and the backup, so
a second `rollback` restores the pre-first-call instance and does not
fail with a no-backup error. -/
theorem c10_rollback_swap {α : Type} (decompress : Bytes → Bytes)
    (loadModule : Bytes → Option α) (s : Sys α) (n : String)
    (e : ModuleEntry α) (b : α) (h1 : s.modules n = some e)
    (h2 : e.path = none ∨ e.versions = []) (h3 : e.backup = some b) :
    (Sys.rollback decompress loadModule s n 1).1 = .ok b ∧
    (Sys.rollback decompress loadModule
        (Sys.rollback decompress loadModule s n 1).2 n 1).1 = .ok e.inst ∧
    ((Sys.rollback decompress loadModule
          (Sys.rollback decompress loadModule s n 1).2 n 1).2.modules n).map
        (fun e2 => (e2.inst, e2.backup)) = some (e.inst, some b) := by
  simp [Sys.rollback, h1, h3, eq_true h2, updateMap_same]

/-- A concrete one-module system used to evaluate the in-memory
rollback path: instance 10, backup 20, no file path. -/
def c10sys : Sys Nat :=
  { modules := updateMap (fun _ => none) "m" ⟨none, 10, some 20, [], none⟩
    vault := CodeVault.empty .sqlite
    fs := fun _ => none }

/-- C10 witness: two successive in-memory rollbacks on a concrete entry
with instance 10 and backup 20 yield 20 then 10 again. -/
theorem c10_rollback_swap_witness :
    (Sys.rollback id (fun _ => none) c10sys "m" 1).1 = .ok 20 ∧
    (Sys.rollback id (fun _ => none)
        (Sys.rollback id (fun _ => none) c10sys "m" 1).2 "m" 1).1 = .ok 10 ∧
    ((Sys.rollback id (fun _ => none)
          (Sys.rollback id (fun _ => none) c10sys "m" 1).2 "m" 1).2.modules
        "m").map (fun e2 => (e2.inst, e2.backup)) = some (10, some 20) :=
  c10_rollback_swap id (fun _ => none) c10sys "m" ⟨none, 10, some 20, [], none⟩
    20 (by decide) (Or.inl rfl) rfl

end NodePatch

namespace NodePatch

deriving instance DecidableEq for Except

/-- Three successive `reloadInstance` calls (values 1, 2, 3) on a module
registered with value 0. -/
def c7chain : Sys Nat :=
  (Sys.reloadInstance id
    ((Sys.reloadInstance id
      ((Sys.reloadInstance id
        (Sys.register (Sys.empty Nat .sqlite) "m" 0) "m" 1 none 0).2)
      "m" 2 none 1).2)
    "m" 3 none 2).2

/-- C7 counterexample: after three successive `reloadInstance` calls the
undo history is the single slot `[2]` — only the most recent prior value
survives, not the two most recent `[1, 2]` that a `maxRollbackDepth = 2`
bound would keep. -/
theorem c7_undo_bound_counterexample :
    (c7chain.modules "m").map undoHistory = some [2] ∧
    (c7chain.modules "m").map undoHistory ≠ some [1, 2] := by
  constructor
  · decide
  · decide

/-- C7 amended: the entry's undo history is a single backup slot — it
always holds at most one value, and a successful `reloadInstance`
leaves exactly the immediately-prior current value in it (any older
value is discarded). No `maxRollbackDepth` bound exists in the code. -/
theorem c7_undo_single_slot {α : Type} (compress : Bytes → Bytes) (s : Sys α)
    (n : String) (v : α) (sourceCode : Option Bytes) (now : Nat)
    (e : ModuleEntry α) (h : s.modules n = some e) :
    (((Sys.reloadInstance compress s n v sourceCode now).2.modules n).map
        undoHistory = some [e.inst]) ∧
    ∀ (e2 : ModuleEntry α), (undoHistory e2).length ≤ 1 := by
  constructor
  · rcases hp : e.path with _ | p <;> rcases hsc : sourceCode with _ | sc <;>
      simp [Sys.reloadInstance, h, hp, hsc, updateMap_same, undoHistory]
  · intro e2
    rcases hb : e2.backup with _ | b <;> simp [undoHistory, hb]

/-- C7 amended witness: one concrete `reloadInstance` leaves exactly the
prior value 0 in the undo slot. -/
theorem c7_undo_single_slot_witness :
    (((Sys.reloadInstance id (Sys.register (Sys.empty Nat .sqlite) "m" 0)
          "m" 1 none 0).2.modules "m").map undoHistory = some [0]) ∧
    ∀ (e2 : ModuleEntry Nat), (undoHistory e2).length ≤ 1 :=
  c7_undo_single_slot id (Sys.register (Sys.empty Nat .sqlite) "m" 0) "m" 1
    none 0 ⟨none, 0, none, [], none⟩ (by decide)

/-- C1 counterexample: instances are modelled by the string their
`greet` returns. Register `"a"` as `"m"`, capture `h = get("m")`, then
`reloadInstance` to `"b"`: the captured reference still behaves as the
old implementation (`.ok "a"`), and `get` now returns a different
value, so neither handle-identity stability nor swap transparency
holds — `get` hands out the raw current instance, not a forwarding
handle. -/
theorem c1_handle_counterexample :
    Sys.get (Sys.register (Sys.empty String .sqlite) "m" "a") "m" = .ok "a" ∧
    Sys.get (Sys.reloadInstance id
        (Sys.register (Sys.empty String .sqlite) "m" "a") "m" "b" none 0).2
      "m" = .ok "b" ∧
    Sys.get (Sys.register (Sys.empty String .sqlite) "m" "a") "m" ≠
      Sys.get (Sys.reloadInstance id
          (Sys.register (Sys.empty String .sqlite) "m" "a") "m" "b" none 0).2
        "m" := by
  refine ⟨by decide, by decide, by decide⟩

/-- C1 amended: `get(n)` returns the entry's current instance value
itself. A value captured from `get` before a reload is unaffected by
the reload and keeps exhibiting the old behaviour, while `get` after a
successful `reloadInstance` returns the newly installed instance. -/
theorem c1_get_returns_current {α : Type} (compress : Bytes → Bytes)
    (s : Sys α) (n : String) (v : α) (now : Nat) (e : ModuleEntry α)
    (h : s.modules n = some e) :
    Sys.get s n = .ok e.inst ∧
    (Sys.reloadInstance compress s n v none now).1 = .ok v ∧
    Sys.get (Sys.reloadInstance compress s n v none now).2 n = .ok v := by
  refine ⟨by simp [Sys.get, h], ?_, ?_⟩ <;>
    rcases hp : e.path with _ | p <;>
      simp [Sys.reloadInstance, Sys.get, h, hp, updateMap_same]

/-- C1 amended witness: evaluated on the register/capture/reload
scenario from the spec's example. -/
theorem c1_get_returns_current_witness :
    Sys.get (Sys.register (Sys.empty String .sqlite) "m" "a") "m" = .ok "a" ∧
    (Sys.reloadInstance id (Sys.register (Sys.empty String .sqlite) "m" "a")
        "m" "b" none 0).1 = .ok "b" ∧
    Sys.get (Sys.reloadInstance id
        (Sys.register (Sys.empty String .sqlite) "m" "a") "m" "b" none 0).2
      "m" = .ok "b" :=
  c1_get_returns_current id (Sys.register (Sys.empty String .sqlite) "m" "a")
    "m" "b" 0 ⟨none, "a", none, [], none⟩ (by decide)

end NodePatch

namespace NodePatch

/-- A concrete file-backed system whose loader always throws: entry
`"m"` has path `"f.js"` and instance 7, the file holds bytes `[1, 2]`. -/
def c5sys : Sys Nat :=
  { modules := updateMap (fun _ => none) "m" ⟨some "f.js", 7, none, [], none⟩
    vault := CodeVault.empty .sqlite
    fs := updateMap (fun _ => none) "f.js" [1, 2] }

/-- C5 counterexample: a `reload` that fails in the final `require`
(loader throws) has already appended to the version log and overwritten
the backup — the entry's state is not left as it was before the call. -/
theorem c5_reload_not_atomic_counterexample :
    (Sys.reload id (fun _ => none) c5sys "m" 5).1 = .error .loadFailure ∧
    ((Sys.reload id (fun _ => none) c5sys "m" 5).2.modules "m").map
        ModuleEntry.versions ≠ some [] ∧
    ((Sys.reload id (fun _ => none) c5sys "m" 5).2.modules "m").map
        ModuleEntry.backup ≠ some none := by
  refine ⟨by decide, by decide, by decide⟩

/-- C5 amended: a failed `reload` always leaves the entry's current
value unchanged, and when the failure happens before the final
`require` (unknown name, no path, or file-read failure) the whole state
is untouched; but a `require` failure keeps the vault write, the
version-log append, the `currentVersion` update and the backup
overwrite performed before the throwing statement. -/
theorem c5_reload_failure_state {α : Type} (compress : Bytes → Bytes)
    (loadModule : Bytes → Option α) (s : Sys α) (n : String) (now : Nat)
    (err : PErr) (s2 : Sys α)
    (h : Sys.reload compress loadModule s n now = (.error err, s2)) :
    (s2.modules n).map ModuleEntry.inst = (s.modules n).map ModuleEntry.inst ∧
    (err ≠ .loadFailure → s2 = s) := by
  rcases hm : s.modules n with _ | e
  · have hr : Sys.reload compress loadModule s n now =
        (.error .notRegistered, s) := by
      simp [Sys.reload, hm]
    rw [hr] at h
    injection h with h1 h2
    injection h1 with h1
    subst h2
    subst h1
    exact ⟨by rw [hm], fun _ => rfl⟩
  · rcases hp : e.path with _ | p
    · have hr : Sys.reload compress loadModule s n now =
          (.error .noFilePath, s) := by
        simp [Sys.reload, hm, hp]
      rw [hr] at h
      injection h with h1 h2
      injection h1 with h1
      subst h2
      subst h1
      exact ⟨by rw [hm], fun _ => rfl⟩
    · rcases hf : s.fs p with _ | code
      · have hr : Sys.reload compress loadModule s n now =
            (.error .readFailure, s) := by
          simp [Sys.reload, hm, hp, hf]
        rw [hr] at h
        injection h with h1 h2
        injection h1 with h1
        subst h2
        subst h1
        exact ⟨by rw [hm], fun _ => rfl⟩
      · rcases hl : loadModule code with _ | v
        · have hr : Sys.reload compress loadModule s n now =
              (.error .loadFailure,
                { s with
                  vault := CodeVault.store compress s.vault
                    (makeVersionKey n now) code now
                  modules := updateMap s.modules n
                    { e with
                      versions := e.versions ++ [⟨makeVersionKey n now, now⟩]
                      currentVersion := some (makeVersionKey n now)
                      backup := some e.inst } }) := by
            simp [Sys.reload, hm, hp, hf, hl]
          rw [hr] at h
          injection h with h1 h2
          injection h1 with h1
          subst h2
          subst h1
          refine ⟨by simp [updateMap_same], fun hne => absurd rfl hne⟩
        · have hr : (Sys.reload compress loadModule s n now).1 = .ok v := by
            simp [Sys.reload, hm, hp, hf, hl]
          rw [h] at hr
          exact (Except.noConfusion hr)

/-- C5 amended witness: a reload of a pathless entry fails and the
state is completely unchanged. -/
theorem c5_reload_failure_state_witness :
    ((Sys.reload id (fun _ => none)
          (Sys.register (Sys.empty Nat .sqlite) "m" 7) "m" 0).2.modules
        "m").map ModuleEntry.inst =
      (((Sys.register (Sys.empty Nat .sqlite) "m" 7)).modules "m").map
        ModuleEntry.inst ∧
    (PErr.noFilePath ≠ PErr.loadFailure →
      (Sys.reload id (fun _ => none)
          (Sys.register (Sys.empty Nat .sqlite) "m" 7) "m" 0).2 =
        Sys.register (Sys.empty Nat .sqlite) "m" 7) :=
  c5_reload_failure_state id (fun _ => none)
    (Sys.register (Sys.empty Nat .sqlite) "m" 7) "m" 0 .noFilePath
    (Sys.reload id (fun _ => none)
        (Sys.register (Sys.empty Nat .sqlite) "m" 7) "m" 0).2 rfl

end NodePatch

namespace NodePatch

/-- Runtime "shape classes" of a JavaScript value, as the spec's
compatibility check would distinguish them. -/
inductive JSValue where
  | fn (id : Nat)
  | obj (id : Nat)
deriving DecidableEq

/-- A file-backed system whose current instance for `"m"` is a function
value; the backing file's loader produces a plain object. -/
def c6sys : Sys JSValue :=
  { modules := updateMap (fun _ => none) "m"
      ⟨some "f.js", JSValue.fn 0, none, [], none⟩
    vault := CodeVault.empty .sqlite
    fs := updateMap (fun _ => none) "f.js" [9] }

/-- C6 counterexample: reloading a function-backed entry from a file
whose export is a plain object does not fail — the object is installed
as the current instance. No shape-compatibility check exists in the
code. -/
theorem c6_no_shape_check_counterexample :
    (Sys.reload id (fun _ => some (JSValue.obj 1)) c6sys "m" 0).1 =
      .ok (JSValue.obj 1) ∧
    ((Sys.reload id (fun _ => some (JSValue.obj 1)) c6sys "m" 0).2.modules
        "m").map ModuleEntry.inst = some (JSValue.obj 1) := by
  refine ⟨by decide, by decide⟩

/-- C6 amended: `reload` performs no type-compatibility check at all:
whenever the file read and the module load succeed, the candidate is
installed as the current instance regardless of its runtime shape
relative to the previous one. -/
theorem c6_reload_installs_unchecked {α : Type} (compress : Bytes → Bytes)
    (loadModule : Bytes → Option α) (s : Sys α) (n : String) (now : Nat)
    (e : ModuleEntry α) (p : String) (code : Bytes) (v : α)
    (hm : s.modules n = some e) (hp : e.path = some p)
    (hf : s.fs p = some code) (hl : loadModule code = some v) :
    (Sys.reload compress loadModule s n now).1 = .ok v ∧
    ((Sys.reload compress loadModule s n now).2.modules n).map
        ModuleEntry.inst = some v := by
  refine ⟨?_, ?_⟩ <;> simp [Sys.reload, hm, hp, hf, hl, updateMap_same]

/-- C6 amended witness: the function-to-object reload evaluated on the
concrete system. -/
theorem c6_reload_installs_unchecked_witness :
    (Sys.reload id (fun _ => some (JSValue.obj 1)) c6sys "m" 0).1 =
      .ok (JSValue.obj 1) ∧
    ((Sys.reload id (fun _ => some (JSValue.obj 1)) c6sys "m" 0).2.modules
        "m").map ModuleEntry.inst = some (JSValue.obj 1) :=
  c6_reload_installs_unchecked id (fun _ => some (JSValue.obj 1)) c6sys "m" 0
    ⟨some "f.js", JSValue.fn 0, none, [], none⟩ "f.js" [9] (JSValue.obj 1)
    (by decide) rfl (by decide) rfl

end NodePatch

namespace NodePatch

/-- A concrete in-memory entry (no path, no versions, backup present)
for exercising `rollback` with a large step count. -/
def c8sys : Sys Nat :=
  { modules := updateMap (fun _ => none) "m" ⟨none, 10, some 20, [], none⟩
    vault := CodeVault.empty .sqlite
    fs := fun _ => none }

/-- C8 counterexample: an entry with no stored versions (fewer than the
requested 99 steps) and a backup does not fail with the out-of-range
error — `rollback(name, 99)` ignores the step count in the in-memory
branch, performs the backup swap and mutates the entry. -/
theorem c8_in_memory_ignores_steps_counterexample :
    (Sys.rollback id (fun _ => none) c8sys "m" 99).1 = .ok 20 ∧
    (Sys.rollback id (fun _ => none) c8sys "m" 99).1 ≠ .error .outOfRange ∧
    ((Sys.rollback id (fun _ => none) c8sys "m" 99).2.modules "m").map
        ModuleEntry.inst ≠ (c8sys.modules "m").map ModuleEntry.inst := by
  refine ⟨by decide, by decide, by decide⟩

/-- C8 amended: for a file-backed entry with a non-empty version log,
`rollback(name, steps)` with `steps ≥ versions.length` fails with the
out-of-range error and leaves the whole state (registry, vault,
filesystem) unchanged; in the in-memory branch the step count is
ignored and the backup swap happens regardless. -/
theorem c8_persisted_out_of_range {α : Type} (decompress : Bytes → Bytes)
    (loadModule : Bytes → Option α) (s : Sys α) (n : String)
    (e : ModuleEntry α) (p : String) (steps : Nat)
    (hm : s.modules n = some e) (hp : e.path = some p)
    (hv : e.versions ≠ []) (hs : e.versions.length ≤ steps) :
    Sys.rollback decompress loadModule s n steps = (.error .outOfRange, s) := by
  have hcond : ¬(e.path = none ∨ e.versions = []) := by
    simp [hp, hv]
  have hneg : ((e.versions.length : Int) - 1 - (steps : Int)) < 0 := by
    have hc : (e.versions.length : Int) ≤ (steps : Int) := by exact_mod_cast hs
    omega
  simp [Sys.rollback, hm, hcond, hp, hv, hneg]

/-- C8 amended witness: a one-version file-backed entry rolled back 99
steps fails out-of-range with the state intact. -/
theorem c8_persisted_out_of_range_witness :
    Sys.rollback id (fun _ => none)
        { modules := updateMap (fun _ => none) "m"
            ⟨some "f.js", (10 : Nat), none, [⟨"m@0", 0⟩], some "m@0"⟩
          vault := CodeVault.empty .sqlite
          fs := fun _ => none } "m" 99 =
      (.error .outOfRange,
        { modules := updateMap (fun _ => none) "m"
            ⟨some "f.js", (10 : Nat), none, [⟨"m@0", 0⟩], some "m@0"⟩
          vault := CodeVault.empty .sqlite
          fs := fun _ => none }) :=
  c8_persisted_out_of_range id (fun _ => none) _ "m"
    ⟨some "f.js", (10 : Nat), none, [⟨"m@0", 0⟩], some "m@0"⟩ "f.js" 99
    (by decide) rfl (by decide) (by decide)

end NodePatch

namespace NodePatch

/-- A four-version file-backed system whose v1 artifact is the empty
string: versions m@0..m@3 with artifacts [0], [], [2], [3] in the
sqlite vault, current instance 3. -/
def c3sysEmpty : Sys Nat :=
  { modules := updateMap (fun _ => none) "m"
      ⟨some "f.js", 3, none,
        [⟨"m@0", 0⟩, ⟨"m@1", 1⟩, ⟨"m@2", 2⟩, ⟨"m@3", 3⟩], some "m@3"⟩
    vault :=
      ⟨.sqlite, fun _ => none,
        updateMap (updateMap (updateMap (updateMap (fun _ => none)
          "m@0" ([0], 0)) "m@1" ([], 1)) "m@2" ([2], 2)) "m@3" ([3], 3)⟩
    fs := updateMap (fun _ => none) "f.js" [3] }

/-- C3 counterexample: on a file-backed entry with version log
`[v0, v1, v2, v3]` whose stored artifact for v1 is the empty string (a
reachable state: a reload of an emptied source file archives ""),
`rollback(name, 2)` does not restore v1 — the source's `if (!code)`
falsy guard throws "Cached version not found" on the empty string — and
`history(name)` still reports all four versions, not `[v0, v1]`. -/
theorem c3_rollback_empty_artifact_counterexample :
    (Sys.rollback id (fun b => b.head?) c3sysEmpty "m" 2).1 =
      .error .cachedVersionNotFound ∧
    Sys.history (Sys.rollback id (fun b => b.head?) c3sysEmpty "m" 2).2 "m" =
      .ok [⟨"m@0", 0⟩, ⟨"m@1", 1⟩, ⟨"m@2", 2⟩, ⟨"m@3", 3⟩] ∧
    Sys.history (Sys.rollback id (fun b => b.head?) c3sysEmpty "m" 2).2 "m" ≠
      .ok [⟨"m@0", 0⟩, ⟨"m@1", 1⟩] ∧
    (Sys.rollback id (fun b => b.head?) c3sysEmpty "m" 2).2.fs "f.js" =
      some [3] := by
  refine ⟨by decide, by decide, by decide, by decide⟩

/-- C3 amended: for a file-backed entry whose version log is
`[v0, v1, v2, v3]` (v3 current) and whose stored artifact for v1 is
non-empty and loadable, `rollback(name, 2)` computes
`targetIndex = 4 - 1 - 2 = 1`, restores v1's stored content (writes it
back to the source path and installs the reloaded implementation),
truncates the version log to the first two entries, and a subsequent
`history(name)` reports exactly `[v0, v1]`; an empty stored artifact
instead fails the `if (!code)` guard with "Cached version not found". -/
theorem c3_rollback_two_steps {α : Type} (decompress : Bytes → Bytes)
    (loadModule : Bytes → Option α) (s : Sys α) (n p : String) (cur : α)
    (bk : Option α) (cv : Option String) (v0 v1 v2 v3 : ModuleVersionMeta)
    (c1 : Bytes) (m1 : α)
    (hm : s.modules n = some ⟨some p, cur, bk, [v0, v1, v2, v3], cv⟩)
    (hl : CodeVault.load decompress s.vault v1.key = some c1)
    (hc1 : c1 ≠ [])
    (hload : loadModule c1 = some m1) :
    (Sys.rollback decompress loadModule s n 2).1 = .ok m1 ∧
    Sys.history (Sys.rollback decompress loadModule s n 2).2 n = .ok [v0, v1] ∧
    ((Sys.rollback decompress loadModule s n 2).2.modules n).map
        (fun e2 => (e2.inst, e2.currentVersion, e2.backup)) =
      some (m1, some v1.key, some cur) ∧
    (Sys.rollback decompress loadModule s n 2).2.fs p = some c1 := by
  refine ⟨?_, ?_, ?_, ?_⟩ <;>
    simp [Sys.rollback, Sys.history, hm, hl, hc1, hload, updateMap_same]

/-- A concrete four-version file-backed system: versions m@0..m@3 with
artifacts [0], [1], [2], [3] in the sqlite vault, current instance 3. -/
def c3sys : Sys Nat :=
  { modules := updateMap (fun _ => none) "m"
      ⟨some "f.js", 3, none,
        [⟨"m@0", 0⟩, ⟨"m@1", 1⟩, ⟨"m@2", 2⟩, ⟨"m@3", 3⟩], some "m@3"⟩
    vault :=
      ⟨.sqlite, fun _ => none,
        updateMap (updateMap (updateMap (updateMap (fun _ => none)
          "m@0" ([0], 0)) "m@1" ([1], 1)) "m@2" ([2], 2)) "m@3" ([3], 3)⟩
    fs := updateMap (fun _ => none) "f.js" [3] }

/-- C3 witness: the two-step rollback evaluated on the concrete
four-version system (the loader returns the first byte of the file). -/
theorem c3_rollback_two_steps_witness :
    (Sys.rollback id (fun b => b.head?) c3sys "m" 2).1 = .ok 1 ∧
    Sys.history (Sys.rollback id (fun b => b.head?) c3sys "m" 2).2 "m" =
      .ok [⟨"m@0", 0⟩, ⟨"m@1", 1⟩] ∧
    ((Sys.rollback id (fun b => b.head?) c3sys "m" 2).2.modules "m").map
        (fun e2 => (e2.inst, e2.currentVersion, e2.backup)) =
      some (1, some "m@1", some 3) ∧
    (Sys.rollback id (fun b => b.head?) c3sys "m" 2).2.fs "f.js" = some [1] :=
  c3_rollback_two_steps id (fun b => b.head?) c3sys "m" "f.js" 3 none
    (some "m@3") ⟨"m@0", 0⟩ ⟨"m@1", 1⟩ ⟨"m@2", 2⟩ ⟨"m@3", 3⟩ [1] 1
    (by decide) (by decide) (by decide) rfl

end NodePatch

namespace NodePatch

/-- Modelled from the spec: the registry variant with bounded undo/redo
stacks that `rollForward` operates on. `PatchModules.rollForward` and
`getHistory` are called from src/src/repl.ts but no definition of them
(or of `undoStack`/`redoStack`) exists under src/; per §3 of the spec an
entry holds the current value, an `undoStack` (most-recent-last, bounded
by `maxRollbackDepth`) and a `redoStack`. -/
structure SpecEntry (α : Type) where
  current : α
  undoStack : List α
  redoStack : List α
deriving DecidableEq

/-- Modelled from the spec: the typed failure `NoForwardAvailable`
(§7), raised when roll-forward is requested with an empty redo stack. -/
inductive SpecErr where
  | noForwardAvailable
deriving DecidableEq

/-- Modelled from the spec: pushing onto the bounded undo stack —
append most-recent-last and drop the oldest entries (FIFO) once the
configured `maxRollbackDepth` is exceeded (§3, §6). -/
def pushBounded {α : Type} (depth : Nat) (xs : List α) (x : α) : List α :=
  let ys := xs ++ [x]
  ys.drop (ys.length - depth)

/-- Modelled from the spec: `rollForward(name)` — requires a non-empty
`redoStack`; pops its most recent element, pushes the current value
onto `undoStack` respecting the bound, and installs the popped value
(§4.3); with an empty `redoStack` it fails with `NoForwardAvailable`. -/
def rollForward {α : Type} (depth : Nat) (e : SpecEntry α) :
    Except SpecErr (SpecEntry α) :=
  match e.redoStack.reverse with
  | [] => .error .noForwardAvailable
  | v :: rest => .ok ⟨v, pushBounded depth e.undoStack e.current, rest.reverse⟩

/-- C9: with an empty redo stack `rollForward` fails with
`NoForwardAvailable`; with a non-empty redo stack it pops the most
recent rolled-back value, pushes the current value onto the undo stack
respecting the `maxRollbackDepth` bound, and installs the popped value. -/
theorem c9_rollforward_spec {α : Type} (depth : Nat) (cur : α)
    (undo : List α) :
    rollForward depth (⟨cur, undo, []⟩ : SpecEntry α) =
      .error .noForwardAvailable ∧
    (∀ (rs : List α) (v : α),
      rollForward depth (⟨cur, undo, rs ++ [v]⟩ : SpecEntry α) =
        .ok ⟨v, pushBounded depth undo cur, rs⟩) ∧
    (pushBounded depth undo cur).length ≤ depth := by
  refine ⟨rfl, fun rs v => ?_, ?_⟩
  · simp [rollForward]
  · simp only [pushBounded, List.length_drop]
    omega

end NodePatch
